import Mathlib

/-!
Verification of the campus-directory data-consistency subsystem of
`nams-campus-transition-notification-project-25-26` (src/Code.js).

The Google Apps Script source is shallowly embedded: JSON values become the
inductive `JValue`, the `PropertiesService` script-property store becomes the
`Props` structure (only the keys the verified claims touch: the directory
payload under `campusData`, the dedicated `migrationComplete` flag and the
`lastUpdated` timestamp; telemetry log keys are modelled separately by the
bounded-append functions), spreadsheet sheets become optional grids of cell
strings, and thrown JavaScript exceptions become `Except` values.  A stored
property string is modelled by `StoredStr`: either the serialization of a
JSON value (`json v`, on which `JSON.parse` succeeds and returns `v`) or a
non-JSON string (`garbage s`, on which `JSON.parse` throws).
-/

/-- A JavaScript value produced by `JSON.parse` / consumed by
`JSON.stringify`.  Object field lists model post-parse JS objects, whose
keys are distinct and kept in insertion order. -/
inductive JValue where
  | null : JValue
  | bool : Bool → JValue
  | num : Int → JValue
  | str : String → JValue
  | arr : List JValue → JValue
  | obj : List (String × JValue) → JValue

mutual

/-- Decidable equality for `JValue` (the automatic derivation does not
support this nested inductive). -/
def jvDecEq : (a b : JValue) → Decidable (a = b)
  | JValue.null, JValue.null => isTrue rfl
  | JValue.null, JValue.bool _ => isFalse fun h => JValue.noConfusion h
  | JValue.null, JValue.num _ => isFalse fun h => JValue.noConfusion h
  | JValue.null, JValue.str _ => isFalse fun h => JValue.noConfusion h
  | JValue.null, JValue.arr _ => isFalse fun h => JValue.noConfusion h
  | JValue.null, JValue.obj _ => isFalse fun h => JValue.noConfusion h
  | JValue.bool _, JValue.null => isFalse fun h => JValue.noConfusion h
  | JValue.bool x, JValue.bool y =>
      match decEq x y with
      | isTrue h => isTrue (congrArg JValue.bool h)
      | isFalse h => isFalse fun e => h (JValue.bool.inj e)
  | JValue.bool _, JValue.num _ => isFalse fun h => JValue.noConfusion h
  | JValue.bool _, JValue.str _ => isFalse fun h => JValue.noConfusion h
  | JValue.bool _, JValue.arr _ => isFalse fun h => JValue.noConfusion h
  | JValue.bool _, JValue.obj _ => isFalse fun h => JValue.noConfusion h
  | JValue.num _, JValue.null => isFalse fun h => JValue.noConfusion h
  | JValue.num _, JValue.bool _ => isFalse fun h => JValue.noConfusion h
  | JValue.num x, JValue.num y =>
      match decEq x y with
      | isTrue h => isTrue (congrArg JValue.num h)
      | isFalse h => isFalse fun e => h (JValue.num.inj e)
  | JValue.num _, JValue.str _ => isFalse fun h => JValue.noConfusion h
  | JValue.num _, JValue.arr _ => isFalse fun h => JValue.noConfusion h
  | JValue.num _, JValue.obj _ => isFalse fun h => JValue.noConfusion h
  | JValue.str _, JValue.null => isFalse fun h => JValue.noConfusion h
  | JValue.str _, JValue.bool _ => isFalse fun h => JValue.noConfusion h
  | JValue.str _, JValue.num _ => isFalse fun h => JValue.noConfusion h
  | JValue.str x, JValue.str y =>
      match decEq x y with
      | isTrue h => isTrue (congrArg JValue.str h)
      | isFalse h => isFalse fun e => h (JValue.str.inj e)
  | JValue.str _, JValue.arr _ => isFalse fun h => JValue.noConfusion h
  | JValue.str _, JValue.obj _ => isFalse fun h => JValue.noConfusion h
  | JValue.arr _, JValue.null => isFalse fun h => JValue.noConfusion h
  | JValue.arr _, JValue.bool _ => isFalse fun h => JValue.noConfusion h
  | JValue.arr _, JValue.num _ => isFalse fun h => JValue.noConfusion h
  | JValue.arr _, JValue.str _ => isFalse fun h => JValue.noConfusion h
  | JValue.arr xs, JValue.arr ys =>
      match jvDecEqList xs ys with
      | isTrue h => isTrue (congrArg JValue.arr h)
      | isFalse h => isFalse fun e => h (JValue.arr.inj e)
  | JValue.arr _, JValue.obj _ => isFalse fun h => JValue.noConfusion h
  | JValue.obj _, JValue.null => isFalse fun h => JValue.noConfusion h
  | JValue.obj _, JValue.bool _ => isFalse fun h => JValue.noConfusion h
  | JValue.obj _, JValue.num _ => isFalse fun h => JValue.noConfusion h
  | JValue.obj _, JValue.str _ => isFalse fun h => JValue.noConfusion h
  | JValue.obj _, JValue.arr _ => isFalse fun h => JValue.noConfusion h
  | JValue.obj xs, JValue.obj ys =>
      match jvDecEqObj xs ys with
      | isTrue h => isTrue (congrArg JValue.obj h)
      | isFalse h => isFalse fun e => h (JValue.obj.inj e)

/-- Decidable equality for lists of `JValue`. -/
def jvDecEqList : (xs ys : List JValue) → Decidable (xs = ys)
  | [], [] => isTrue rfl
  | [], _ :: _ => isFalse fun h => List.noConfusion h
  | _ :: _, [] => isFalse fun h => List.noConfusion h
  | x :: xs, y :: ys =>
      match jvDecEq x y with
      | isFalse h => isFalse fun e => h (List.cons.inj e).1
      | isTrue h1 =>
        match jvDecEqList xs ys with
        | isTrue h2 => isTrue (h1 ▸ h2 ▸ rfl)
        | isFalse h2 => isFalse fun e => h2 (List.cons.inj e).2

/-- Decidable equality for `JValue` object field lists. -/
def jvDecEqObj : (xs ys : List (String × JValue)) → Decidable (xs = ys)
  | [], [] => isTrue rfl
  | [], _ :: _ => isFalse fun h => List.noConfusion h
  | _ :: _, [] => isFalse fun h => List.noConfusion h
  | (k1, v1) :: xs, (k2, v2) :: ys =>
      match decEq k1 k2 with
      | isFalse h => isFalse fun e => h (congrArg Prod.fst (List.cons.inj e).1)
      | isTrue hk =>
        match jvDecEq v1 v2 with
        | isFalse h => isFalse fun e => h (congrArg Prod.snd (List.cons.inj e).1)
        | isTrue hv =>
          match jvDecEqObj xs ys with
          | isTrue ht => isTrue (hk ▸ hv ▸ ht ▸ rfl)
          | isFalse h => isFalse fun e => h (List.cons.inj e).2

end

instance : DecidableEq JValue := jvDecEq

instance {ε α : Type} [DecidableEq ε] [DecidableEq α] :
    DecidableEq (Except ε α) := fun x y =>
  match x, y with
  | Except.ok a, Except.ok b =>
      match decEq a b with
      | isTrue h => isTrue (congrArg Except.ok h)
      | isFalse h => isFalse fun e => h (Except.ok.inj e)
  | Except.error a, Except.error b =>
      match decEq a b with
      | isTrue h => isTrue (congrArg Except.error h)
      | isFalse h => isFalse fun e => h (Except.error.inj e)
  | Except.ok _, Except.error _ => isFalse fun h => Except.noConfusion h
  | Except.error _, Except.ok _ => isFalse fun h => Except.noConfusion h

/-- A string stored under a script-property key: either valid JSON
(serialization of `v`) or garbage on which `JSON.parse` throws. -/
inductive StoredStr where
  | json : JValue → StoredStr
  | garbage : String → StoredStr
  deriving DecidableEq

/-- JS truthiness of a parsed value (`!v` is its negation). -/
def jsTruthy : JValue → Bool
  | JValue.null => false
  | JValue.bool b => b
  | JValue.num n => n != 0
  | JValue.str s => s != ""
  | JValue.arr _ => true
  | JValue.obj _ => true

/-- JS truthiness of a raw stored property string (`getProperty` result):
an empty string is falsy. -/
def truthyStored : StoredStr → Bool
  | StoredStr.json _ => true
  | StoredStr.garbage s => s != ""

/-- `typeof v === 'object'`: true for objects, arrays and `null`. -/
def jsTypeofObject : JValue → Bool
  | JValue.null => true
  | JValue.arr _ => true
  | JValue.obj _ => true
  | _ => false

/-- `Array.isArray(v)`. -/
def jsIsArray : JValue → Bool
  | JValue.arr _ => true
  | _ => false

/-- Property access `v[key]` on a parsed value; `none` models `undefined`.
JS objects have distinct keys, so first-match lookup is exact. -/
def jsGetField : JValue → String → Option JValue
  | JValue.obj fields, key => fields.lookup key
  | _, _ => none

/-- First-match association-list lookup (JS object property read). -/
def alookup {α : Type} : List (String × α) → String → Option α
  | [], _ => none
  | (k, v) :: rest, key => if k = key then some v else alookup rest key

/-- JS object property assignment `o[k] = v`: replaces the value in place
when the key exists, otherwise appends the key in insertion order. -/
def assocSet {α : Type} : List (String × α) → String → α → List (String × α)
  | [], key, v => [(key, v)]
  | (k, w) :: rest, key, v =>
      if k = key then (k, v) :: rest else (k, w) :: assocSet rest key v

/-- Update the value at a key in place, leaving other entries unchanged. -/
def assocModify {α : Type} : List (String × α) → String → (α → α) → List (String × α)
  | [], _, _ => []
  | (k, v) :: rest, key, f =>
      if k = key then (k, f v) :: rest else (k, v) :: assocModify rest key f

/-- `Object.keys(v)` paired with the corresponding values: object fields in
insertion order; array indices (as strings) with the elements. -/
def entriesOf : JValue → List (String × JValue)
  | JValue.obj fields => fields
  | JValue.arr xs => xs.enum.map (fun p => (toString p.1, p.2))
  | _ => []

/-- Whitespace as matched by the JS `\s` class / `String.prototype.trim`
(ASCII fragment; all cell data in this system is ASCII). -/
def jsWhitespace (c : Char) : Bool := c.isWhitespace

/-- `String.prototype.trim()`. -/
def jsTrim (s : String) : String :=
  String.mk (((s.data.dropWhile jsWhitespace).reverse.dropWhile jsWhitespace).reverse)

/-- `String.prototype.toLowerCase()` (ASCII). -/
def jsToLower (s : String) : String := String.mk (s.data.map Char.toLower)

/-- `hay.includes(needle)` on char lists. -/
def listIncludes : List Char → List Char → Bool
  | hay, needle =>
    if needle.isPrefixOf hay then true
    else
      match hay with
      | [] => false
      | _ :: t => listIncludes t needle

/-- `hay.includes(needle)` (JS substring containment). -/
def strIncludes (hay needle : String) : Bool := listIncludes hay.data needle.data

/-- Split a char list at every occurrence of a separator character. -/
def splitOnChar (sep : Char) : List Char → List (List Char)
  | [] => [[]]
  | c :: rest =>
    let r := splitOnChar sep rest
    if c = sep then [] :: r
    else
      match r with
      | h :: t => (c :: h) :: t
      | [] => [[c]]

example : splitOnChar '@' "a@b.c".data = ["a".data, "b.c".data] := by decide
example : jsTrim "  hi " = "hi" := by decide
example : jsToLower "BerNal" = "bernal" := by decide
example : strIncludes "bernal" "erna" = true := by decide
example : strIncludes "bernal" "xx" = false := by decide

/-!
## Persistent store (`PropertiesManager`, src/Code.js lines 599-1098)

Only the script-property keys that carry directory state are modelled:
`campusData` (the serialized Directory payload), `migrationComplete` (the
dedicated flag, a plain string) and `lastUpdated`.  The telemetry keys
(`migrationLogs`, `runtimeLogs`, summaries, statistics) are disjoint from
these; the bounded log append they receive is modelled separately below.
-/

/-- The modelled slice of `PropertiesService.getScriptProperties()`. -/
structure Props where
  campusData : Option StoredStr
  migrationComplete : Option String
  lastUpdated : Option String
  deriving DecidableEq

/-- The regex `/^[^\s@]+@[^\s@]+\.[^\s@]+$/` used by
`PropertiesManager.validateCacheData` (line 957): one or more
non-space-non-`@` characters, `@`, then a domain containing a dot with at
least one non-space-non-`@` character on each side. -/
def cacheEmailRegexTest (s : String) : Bool :=
  match splitOnChar '@' s.data with
  | [loc, dom] =>
      !loc.isEmpty && !dom.isEmpty &&
      (loc ++ dom).all (fun c => !jsWhitespace c) &&
      ((dom.drop 1).dropLast.contains '.')
  | _ => false

/-- `typeof v === 'string'` on an optional field value. -/
def jsIsStringOpt : Option JValue → Bool
  | some (JValue.str _) => true
  | _ => false

/-- `Array.isArray(v)` on an optional field value (`undefined` is not an
array). -/
def jsIsArrayOpt : Option JValue → Bool
  | some (JValue.arr _) => true
  | _ => false

/-- Rendering of a value inside a template-literal error message
(`${email}`). -/
def jvalueDisplay : JValue → String
  | JValue.str s => s
  | JValue.bool b => if b then "true" else "false"
  | JValue.num n => toString n
  | JValue.null => "null"
  | JValue.arr _ => ""
  | JValue.obj _ => "[object Object]"

/-- Email-format errors collected over a recipients array by
`validateCacheData` (lines 956-963): an error for every element that is
not a string passing `cacheEmailRegexTest`, with its 1-based index. -/
def cacheRecipientErrors (campus : String) (xs : List JValue) : List String :=
  xs.enum.flatMap (fun p =>
    match p.2 with
    | JValue.str s =>
        if cacheEmailRegexTest s then []
        else
          let idx1 := p.1 + 1
          let email := s
          [s!"Invalid email format in campus {campus}, recipient {idx1}: {email}"]
    | v =>
        let idx1 := p.1 + 1
        let email := jvalueDisplay v
        [s!"Invalid email format in campus {campus}, recipient {idx1}: {email}"])

/-- Per-campus-entry validation of `validateCacheData` (lines 939-964). -/
def cacheEntryErrors (campus : String) (info : JValue) : List String :=
  if !(jsTruthy info && jsTypeofObject info) then
    [s!"Invalid data structure for campus: {campus}"]
  else
    let recipientsField := jsGetField info "recipients"
    (if !jsIsArrayOpt recipientsField then
       [s!"Invalid recipients array for campus: {campus}"]
     else []) ++
    (if !jsIsStringOpt (jsGetField info "driveLink") then
       [s!"Invalid driveLink for campus: {campus}"]
     else []) ++
    (match recipientsField with
     | some (JValue.arr xs) => cacheRecipientErrors campus xs
     | _ => [])

/-- `PropertiesManager.validateCacheData` (lines 924-981): the list of
structural errors for a parsed cache payload; the payload is valid exactly
when this list is empty.  (The 30-day freshness check only logs a warning
and contributes no error.) -/
def validateCacheData (data : JValue) : List String :=
  if !(jsTruthy data && jsTypeofObject data) then
    ["Cache data is not an object"]
  else
    match jsGetField data "campusData" with
    | none => ["Missing or invalid campusData property"]
    | some c =>
        if !(jsTruthy c && jsTypeofObject c) then
          ["Missing or invalid campusData property"]
        else
          (entriesOf c).flatMap (fun p => cacheEntryErrors p.1 p.2)

/-- `PropertiesManager.clearCache` (lines 986-998): deletes the
`campusData` key. -/
def clearCache (p : Props) : Props := { p with campusData := none }

/-- `PropertiesManager.getCampusData` (lines 858-917).  Returns the
`campusData` field of the validated stored payload together with the
resulting store state: a falsy stored string is a cache miss (no
deletion); a parse failure or failed validation is a corruption event that
clears the cache and returns null. -/
def getCampusData (p : Props) : Option JValue × Props :=
  match p.campusData with
  | none => (none, p)
  | some st =>
      if !truthyStored st then (none, p)
      else
        match st with
        | StoredStr.garbage _ => (none, clearCache p)
        | StoredStr.json v =>
            if (validateCacheData v).isEmpty then (jsGetField v "campusData", p)
            else (none, clearCache p)

/-- Per-campus-entry validation of `storeCampusData` (lines 817-828),
returning the message of the first `throw new Error(...)` it would raise. -/
def storeEntryError (campus : String) (info : JValue) : Option String :=
  if !(jsTruthy info && jsTypeofObject info) then
    some s!"Invalid data for campus {campus}: must be an object"
  else if !jsIsArrayOpt (jsGetField info "recipients") then
    some s!"Invalid recipients for campus {campus}: must be an array"
  else if !jsIsStringOpt (jsGetField info "driveLink") then
    some s!"Invalid driveLink for campus {campus}: must be a string"
  else none

/-- Input validation of `storeCampusData` (lines 811-828): the first
thrown error, if any.  Note the stored recipients are only required to be
an array; their elements' email format is NOT checked here. -/
def storeError (campusData : JValue) : Option String :=
  if !(jsTruthy campusData && jsTypeofObject campusData) then
    some "Invalid campus data: must be an object"
  else
    (entriesOf campusData).findSome? (fun p => storeEntryError p.1 p.2)

/-- The `dataToStore` wrapper built by `storeCampusData` (lines 830-835):
the directory under `campusData` plus `lastUpdated = now` and
`migrationComplete = true`. -/
def wrapCampusData (campusData : JValue) (now : String) : JValue :=
  JValue.obj
    [("campusData", campusData),
     ("lastUpdated", JValue.str now),
     ("migrationComplete", JValue.bool true)]

/-- The store state after a successful `storeCampusData`. -/
def storedProps (campusData : JValue) (now : String) (p : Props) : Props :=
  { p with campusData := some (StoredStr.json (wrapCampusData campusData now)) }

/-- `PropertiesManager.storeCampusData` (lines 805-851): validates the
directory and stores it wrapped with `lastUpdated = now` and
`migrationComplete = true`; a validation failure throws before anything is
written. -/
def storeCampusData (campusData : JValue) (now : String) (p : Props) :
    Except String Props :=
  match storeError campusData with
  | some e => Except.error e
  | none => Except.ok (storedProps campusData now p)

/-- `PropertiesManager.isMigrationComplete` (lines 1035-1062): true when
the dedicated flag equals the string `'true'`; OTHERWISE it falls back to
the `migrationComplete` field of the stored (truthy, parseable) directory
payload — a parse failure is caught and leaves the result false. -/
def isMigrationComplete (p : Props) : Bool :=
  let isC := p.migrationComplete == some "true"
  if isC then isC
  else
    match p.campusData with
    | some (StoredStr.json v) =>
        if truthyStored (StoredStr.json v) then
          jsGetField v "migrationComplete" == some (JValue.bool true)
        else false
    | some (StoredStr.garbage _) => false
    | none => false

/-- `PropertiesManager.setMigrationComplete` (lines 1067-1097): sets the
dedicated flag to `'true'` and `lastUpdated`, and also patches
`migrationComplete`/`lastUpdated` into the stored payload when it parses
(a parse failure is caught and only logged; a non-object parse result is
re-serialized unchanged, since `JSON.stringify` drops expando properties
assigned to it). -/
def setMigrationComplete (now : String) (p : Props) : Props :=
  let p1 := { p with migrationComplete := some "true", lastUpdated := some now }
  match p1.campusData with
  | some (StoredStr.json (JValue.obj fields)) =>
      { p1 with campusData := some (StoredStr.json (JValue.obj
          (assocSet (assocSet fields "migrationComplete" (JValue.bool true))
            "lastUpdated" (JValue.str now)))) }
  | _ => p1

example : cacheEmailRegexTest "sally.maher@nisd.net" = true := by decide
example : cacheEmailRegexTest "notanemail" = false := by decide
example : cacheEmailRegexTest "a@b" = false := by decide
example : cacheEmailRegexTest "a@b..c" = true := by decide
example : cacheEmailRegexTest "a b@c.d" = false := by decide

/-!
## Validator (`RecipientsSheetManager`, src/Code.js lines 1263-1602)
-/

/-- `a-zA-Z0-9`. -/
def isAsciiAlnum (c : Char) : Bool :=
  (c ≥ 'a' && c ≤ 'z') || (c ≥ 'A' && c ≤ 'Z') || (c ≥ '0' && c ≤ '9')

/-- The local-part character class of the email regex at line 1267:
alphanumerics plus `. ! # $ % & ' * + / = ? ^ _ ` { | } ~ -`
(the apostrophe, backtick and braces are written by code point). -/
def isEmailLocalChar (c : Char) : Bool :=
  isAsciiAlnum c ||
  [ '.', '!', '#', '$', '%', '&', Char.ofNat 39, '*', '+', '/', '=', '?',
    '^', '_', Char.ofNat 96, Char.ofNat 123, '|', Char.ofNat 125, '~', '-'
  ].contains c

/-- One domain label of the regex at line 1267:
`[a-zA-Z0-9](?:[a-zA-Z0-9-]{0,61}[a-zA-Z0-9])?` — 1 to 63 characters,
alphanumeric at both ends, alphanumeric or hyphen inside. -/
def emailLabelOk : List Char → Bool
  | [] => false
  | c :: rest =>
      isAsciiAlnum c &&
      (match rest with
       | [] => true
       | _ =>
           isAsciiAlnum (rest.getLastD c) &&
           rest.dropLast.all (fun x => isAsciiAlnum x || x = '-') &&
           rest.dropLast.length ≤ 61)

/-- The full email regex of `validateEmailAddresses` (line 1267): a
non-empty local part over `isEmailLocalChar`, one `@`, then dot-separated
domain labels.  Note it does NOT require a dot in the domain. -/
def emailRegexTest (s : String) : Bool :=
  match splitOnChar '@' s.data with
  | [loc, dom] =>
      !loc.isEmpty && loc.all isEmailLocalChar &&
      (splitOnChar '.' dom).all emailLabelOk
  | _ => false

/-- A row accepted into `validationResults.valid` (lines 1329-1334). -/
structure ValidEntry where
  campus : String
  recipient : String
  rowNumber : Nat
  originalCampus : String
  deriving DecidableEq

/-- A row pushed onto `validationResults.invalid` (lines 1302, 1310,
1340-1346); the missing-field pushes carry no `originalCampus`. -/
structure InvalidEntry where
  campus : String
  recipient : String
  rowNumber : Nat
  error : String
  originalCampus : Option String
  deriving DecidableEq

/-- `validationResults.summary` (lines 1274-1280). -/
structure EmailSummary where
  totalRows : Int
  validEmails : Nat
  invalidEmails : Nat
  emptyRows : Nat
  duplicateEmails : Nat
  deriving DecidableEq

/-- The result record of `validateEmailAddresses` (lines 1269-1281). -/
structure EmailValidationResults where
  valid : List ValidEntry
  invalid : List InvalidEntry
  errors : List String
  warnings : List String
  summary : EmailSummary
  deriving DecidableEq

/-- One loop iteration of `validateEmailAddresses` (lines 1286-1364),
threading the `seenEmails` set.  Empty row: counted and skipped.  Missing
campus or recipient: error, row excluded.  Duplicate (case-insensitive)
recipient: warning only, processing continues.  Then the format check
routes the row to `valid` or `invalid`. -/
def emailValidationStep (st : EmailValidationResults × List String)
    (row : List String) (rowNumber : Nat) : EmailValidationResults × List String :=
  let res := st.1
  let seen := st.2
  let campus := jsTrim (row.getD 0 "")
  let recipient := jsTrim (row.getD 1 "")
  if campus = "" && recipient = "" then
    ({ res with summary := { res.summary with emptyRows := res.summary.emptyRows + 1 } }, seen)
  else if campus = "" then
    ({ res with
        errors := res.errors ++
          [s!"Row {rowNumber}: Missing campus name for recipient \"{recipient}\""],
        invalid := res.invalid ++
          [{ campus := "", recipient := recipient, rowNumber := rowNumber,
             error := "Missing campus", originalCampus := none }] }, seen)
  else if recipient = "" then
    ({ res with
        errors := res.errors ++
          [s!"Row {rowNumber}: Missing recipient email for campus \"{campus}\""],
        invalid := res.invalid ++
          [{ campus := campus, recipient := "", rowNumber := rowNumber,
             error := "Missing email", originalCampus := none }] }, seen)
  else
    let lowerCaseEmail := jsToLower recipient
    let dup := seen.contains lowerCaseEmail
    let res1 :=
      if dup then
        { res with
            warnings := res.warnings ++
              [s!"Row {rowNumber}: Duplicate email address \"{recipient}\" (campus: {campus})"],
            summary := { res.summary with
              duplicateEmails := res.summary.duplicateEmails + 1 } }
      else res
    let seen1 := if dup then seen else seen ++ [lowerCaseEmail]
    if emailRegexTest recipient then
      ({ res1 with
          valid := res1.valid ++
            [{ campus := jsToLower campus, recipient := recipient,
               rowNumber := rowNumber, originalCampus := campus }],
          summary := { res1.summary with
            validEmails := res1.summary.validEmails + 1 } }, seen1)
    else
      ({ res1 with
          invalid := res1.invalid ++
            [{ campus := campus, recipient := recipient, rowNumber := rowNumber,
               error := "Invalid format", originalCampus := some campus }],
          errors := res1.errors ++
            [s!"Row {rowNumber}: Invalid email format - \"{recipient}\" (campus: {campus})"],
          summary := { res1.summary with
            invalidEmails := res1.summary.invalidEmails + 1 } }, seen1)

/-- Loop of `validateEmailAddresses` over the data rows, with the
spreadsheet row number of each successive row. -/
def validateRowsGo : List (List String) → Nat →
    EmailValidationResults × List String → EmailValidationResults × List String
  | [], _, st => st
  | r :: rest, rowNumber, st =>
      validateRowsGo rest (rowNumber + 1) (emailValidationStep st r rowNumber)

/-- `RecipientsSheetManager.validateEmailAddresses` (lines 1263-1382):
processes every data row after the header, never aborting on a bad row. -/
def validateEmailAddresses (data : List (List String)) : EmailValidationResults :=
  let init : EmailValidationResults :=
    { valid := [], invalid := [], errors := [], warnings := [],
      summary := { totalRows := (data.length : Int) - 1, validEmails := 0,
                   invalidEmails := 0, emptyRows := 0, duplicateEmails := 0 } }
  (validateRowsGo (data.drop 1) 2 (init, [])).1

example : emailRegexTest "a@nisd.net" = true := by decide
example : emailRegexTest "bad-email" = false := by decide
example : emailRegexTest "valid.email+tag@domain.co.uk" = true := by decide
example : emailRegexTest "spaces in@email.com" = false := by decide
example : emailRegexTest "multiple@@symbols.com" = false := by decide
example : emailRegexTest "@invalid.com" = false := by decide
example : emailRegexTest "invalid@" = false := by decide

/-- The result record of `handleDuplicateCampusEntries` (lines
1501-1509). -/
structure DuplicateHandlingResult where
  data : List (String × List String)
  duplicateWarnings : List String
  totalCampuses : Nat
  totalRecipients : Nat
  duplicatesFound : Nat
  deriving DecidableEq

/-- One iteration of `handleDuplicateCampusEntries` (lines 1450-1486):
track the first-occurrence row of each campus, append the recipient, and
when the identical campus-recipient pair was already present, warn and pop
the just-appended duplicate. -/
def duplicateStep
    (st : List (String × Nat) × List (String × List String) × List String)
    (e : ValidEntry) :
    List (String × Nat) × List (String × List String) × List String :=
  let firstOcc := st.1
  let data := st.2.1
  let warns := st.2.2
  let campus := e.campus
  let recipient := e.recipient
  let rowNumber := e.rowNumber
  let firstOcc1 :=
    if (alookup firstOcc campus).isNone then firstOcc ++ [(campus, rowNumber)]
    else firstOcc
  let data1 :=
    if (alookup firstOcc campus).isNone && (alookup data campus).isNone then
      data ++ [(campus, [])]
    else data
  let data2 :=
    if (alookup data1 campus).isNone then data1 ++ [(campus, [])] else data1
  let data3 := assocModify data2 campus (fun rs => rs ++ [recipient])
  let firstRow := (alookup firstOcc1 campus).getD 0
  if rowNumber ≠ firstRow then
    let existingRecipients := ((alookup data3 campus).getD []).dropLast
    if existingRecipients.contains recipient then
      (firstOcc1, assocModify data3 campus (fun rs => rs.dropLast),
       warns ++
         [s!"Row {rowNumber}: Duplicate campus-recipient combination - \"{campus}\" with \"{recipient}\" (first seen at row {firstRow})"])
    else (firstOcc1, data3, warns)
  else (firstOcc1, data3, warns)

/-- `RecipientsSheetManager.handleDuplicateCampusEntries` (lines
1443-1510): groups recipients under their first-seen campus key, keeping
the first occurrence of an identical campus-recipient pair. -/
def handleDuplicateCampusEntries (validEntries : List ValidEntry) :
    DuplicateHandlingResult :=
  let st := validEntries.foldl duplicateStep ([], [], [])
  let processedData := st.2.1
  let duplicateWarnings := st.2.2
  { data := processedData,
    duplicateWarnings := duplicateWarnings,
    totalCampuses := processedData.length,
    totalRecipients := (processedData.map (fun p => p.2.length)).sum,
    duplicatesFound := duplicateWarnings.length }

/-- Inner cells of one Levenshtein matrix row (`calculateLevenshteinDistance`,
lines 1587-1599): `prev` is the previous matrix row (starting at the
diagonal cell), `cur` the value just computed to the left. -/
def levRowAux (c2 : Char) : List Char → List Nat → Nat → List Nat
  | [], _, _ => []
  | c1 :: cs, prev, cur =>
      match prev with
      | [] => []
      | diag :: rest =>
          let above := rest.headD (diag + 1)
          let v :=
            if c2 = c1 then diag
            else min (min (diag + 1) (cur + 1)) (above + 1)
          v :: levRowAux c2 cs rest v

/-- `RecipientsSheetManager.calculateLevenshteinDistance` (lines
1576-1602): standard dynamic-programming edit distance;
`matrix[i][j]` over rows of `str2` and columns of `str1`. -/
def calculateLevenshteinDistance (str1 str2 : String) : Nat :=
  let cs1 := str1.data
  let row0 := List.range (cs1.length + 1)
  let final := str2.data.foldl
    (fun (st : List Nat × Nat) c2 =>
      let i := st.2 + 1
      (i :: levRowAux c2 cs1 st.1 i, i))
    (row0, 0)
  final.1.getLastD 0

example : calculateLevenshteinDistance "bernel" "bernal" = 1 := by decide
example : calculateLevenshteinDistance "kitten" "sitting" = 3 := by decide
example : calculateLevenshteinDistance "" "abc" = 3 := by decide

/-- An element of `validCampuses`/`invalidCampuses` in
`validateCampusNames` (lines 1539, 1541). -/
structure CampusNameEntry where
  campus : String
  rowNumber : Nat
  deriving DecidableEq

/-- An element of `suggestions` in `validateCampusNames` (line 1555). -/
structure SuggestionEntry where
  campus : String
  suggestions : List String
  rowNumber : Nat
  deriving DecidableEq

/-- The result record of `validateCampusNames` (lines 1522-1527). -/
structure CampusValidationResults where
  validCampuses : List CampusNameEntry
  invalidCampuses : List CampusNameEntry
  warnings : List String
  suggestions : List SuggestionEntry
  deriving DecidableEq

/-- The embedded seed recipient table of
`MigrationManager.extractHardcodedData` (lines 310-490), in source
order. -/
def extractHardcodedData : List (String × List String) :=
  [ ("bernal",
      ["david.laboy@nisd.net", "Marla.Reynolds@nisd.net",
       "sally.maher@nisd.net", "monica.flores@nisd.net"]),
    ("briscoe",
      ["joe.bishop@nisd.net", "francesca.parker@nisd.net",
       "brigitte.rauschuber@nisd.net", "xavier.aguirre@nisd.net"]),
    ("connally",
      ["erica.robles@nisd.net", "monica.ramirez@nisd.net"]),
    ("folks",
      ["yvette.lopez@nisd.net", "miguel.trevino@nisd.net",
       "terry.precie@nisd.net", "angelica.perez@nisd.net",
       "norma.esparza@nisd.net", "james-1.garza@nisd.net",
       "keli.hall@nisd.net", "ann.devlin@nisd.net"]),
    ("garcia",
      ["mateo.macias@nisd.net", "anna.lopez@nisd.net",
       "julie.minnis@nisd.net", "mark.lopez@nisd.net",
       "lori.persyn@nisd.net"]),
    ("hobby",
      ["gregory.dylla@nisd.net", "marian.johnson@nisd.net",
       "lawrence.carranco@nisd.net", "jose.texidor@nisd.net",
       "victoria.denton@nisd.net"]),
    ("hobby magnet", ["jaime.heye@nisd.net"]),
    ("holmgreen", ["cheryl.parra@nisd.net", "frank.johnson@nisd.net"]),
    ("jefferson",
      ["monica.cabico@nisd.net", "Nicole.Gomez@nisd.net",
       "tiffany.watkins@nisd.net", "catherine.villela@nisd.net"]),
    ("jones",
      ["rudolph.arzola@nisd.net", "nicole.mcevoy@nisd.net",
       "erica.lashley@nisd.net", "javier.lazo@nisd.net",
       "aaron.logan@nisd.net"]),
    ("jones magnet", ["david.johnston@nisd.net"]),
    ("jordan",
      ["Shannon.Zavala@nisd.net", "juaquin.zavala@nisd.net",
       "erica.parra@nisd.net", "laurel.graham@nisd.net",
       "robert.ruiz@nisd.net", "anabel.romero@nisd.net"]),
    ("jordan magnet", ["jessica.marcha@nisd.net"]),
    ("luna",
      ["leti.chapa@nisd.net", "jennifer.cipollone@nisd.net",
       "amanda.king@nisd.net", "lisa.richard@nisd.net"]),
    ("neff",
      ["yvonne.correa@nisd.net", "theresa.heim@nisd.net",
       "laura-i.sanroman@nisd.net", "joseph.castellanos@nisd.net",
       "mackenzie.fulton@nisd.net", "adriana.aguero@nisd.net",
       "priscilla.vela@nisd.net", "sarah.tennery@nisd.net",
       "jessica.montalvo@nisd.net", "hayley.giorgio@nisd.net"]),
    ("pease",
      ["Lynda.Desutter@nisd.net", "jessica-1.barrera@nisd.net",
       "guadalupe.brister@nisd.net"]),
    ("rawlinson",
      ["jesus.villela@nisd.net", "david.rojas@nisd.net",
       "nicole.buentello@nisd.net"]),
    ("rayburn",
      ["robert.alvarado@nisd.net", "maricela.garza@nisd.net",
       "carol.zule@nisd.net", "micaela.welsh@nisd.net"]),
    ("ross",
      ["christina.lozano@nisd.net", "priscilla.sigala@nisd.net",
       "dolores.cardenas@nisd.net", "katherine.vela@nisd.net",
       "roxanne.romo@nisd.net", "cristina.castillo@nisd.net"]),
    ("rudder",
      ["catelyn.vasquez@nisd.net", "jeanette.navarro@nisd.net",
       "jason.padron@nisd.net", "adrian.hysten@nisd.net"]),
    ("stevenson",
      ["chaeleen.garcia@nisd.net", "anthony.allen01@nisd.net",
       "hilary.pilaczynski@nisd.net", "johanna.davenport@nisd.net"]),
    ("stinson",
      ["lourdes.medina@nisd.net", "louis.villarreal@nisd.net",
       "jeannette.rainey@nisd.net", "linda.boyett@nisd.net",
       "elda.garza@nisd.net", "maranda.luna@nisd.net",
       "alexis.lopez@nisd.net"]),
    ("straus",
      ["araceli.farias@nisd.net", "jose.gonzalez02@nisd.net",
       "leigh.davis@nisd.net"]),
    ("vale",
      ["jenna.bloom@nisd.net", "brenda.rayburg@nisd.net",
       "daniel.novosad@nisd.net", "mary.harrington@nisd.net"]),
    ("zachry",
      ["Richard.DeLaGarza@nisd.net", "randolph.neuenfeldt@nisd.net",
       "jennifer-a.garcia@nisd.net", "jimann.caliva@nisd.net",
       "veronica.poblano@nisd.net"]),
    ("zachry magnet", ["matthew.patty@nisd.net"]),
    ("test", ["reggie.ollendieck@nisd.net", "zina.gonzales@nisd.net"]) ]

/-- The embedded fallback drive-folder table of
`MigrationManager.getHardcodedDriveLinks` (lines 562-592). -/
def getHardcodedDriveLinks : List (String × String) :=
  [ ("bernal", "1QlavZvp-8tvqiPF3zYQanZ9SQ7UhiJaE"),
    ("briscoe", "1JgHL75iSr5F1lgHLieZl0y_psuc7gp-N"),
    ("connally", "1cWPX_nOXb9yldONekm9Ba3Rsksl9yqKe"),
    ("folks", "1MZ9MCh1DmI9cJFWbr5BA-v1jJh5Dd1E9"),
    ("garcia", "1D8_8q9fcB6tn3fXX8xnlkGE8aro8fbDm"),
    ("hobby", "1u76TEIq5BbCNCG-i8Ta73VaY7NTOsK4x"),
    ("hobby magnet", "1YrvPC7m0eX128C0dR3u4RGNfU82MXOg2"),
    ("holmgreen", "1c8ufu7MvAsNwQAwx0IOwi4O1dNU1-7yo"),
    ("jefferson", "1LlQxIJBeCxV440nalwS5fjzu8_1dYvlx"),
    ("jones", "1jBxe9OFTTcones277XnehgvW4EnM4YQk"),
    ("jones magnet", "1oeMqPEr_cpstSWRa0LV-uodQwteQKRWn"),
    ("jordan", "1T90JGPgUu7DhfBBytxRrfgqkMBrkzOAN"),
    ("jordan magnet", "1BVECP6fsaqGXap1uEOchy5SW-6PsADM9"),
    ("luna", "10DdpBdHwp7bH5ph-pKvfbvG23tsi9ZMc"),
    ("neff", "1Sd7DrcgHjnAcuqR79DVmISnVn3Bzzfyn"),
    ("pease", "1tOusVf1SxNckZC5ro-dwBlk8-YpKUMuh"),
    ("rawlinson", "1p9IXf40oikwOrxSSmonwnBJ-dOJB7Ui6"),
    ("rayburn", "1DcP6LUpcT8wT9PEYgc4_dwk2mclWI9bp"),
    ("ross", "1KGyYAJF5Qf-Gt0oWvRRjH2Vw_DTARMcg"),
    ("rudder", "1a3PiBLrTtsMJkR6lthx86gUqd2_qeF-D"),
    ("stevenson", "1Y43jZCtjKFbF-I09lBS6wnr-Vbl0p_Cm"),
    ("stinson", "1pG4NIUveTfv46DvQoq0TD4uuwaXCLwkS"),
    ("straus", "15p9xqZoyikuVRk4ZVi7sUYYgoxL1PSew"),
    ("vale", "1QoRQNEt7_gWT3PC_DPnDFjlT1XKVQ3sN"),
    ("zachry", "1UZDcETdHG5eN9DSCdfKcV0wt72cVY7Ek"),
    ("zachry magnet", "1wMjhAx6wGOw5j-tu7-4wTNnH7V80pfPe"),
    ("test", "1nMJAEcGIh_QnhfS5gjCkKd6CtoA3r5cf") ]

/-- One iteration of `validateCampusNames` (lines 1531-1563): each
first-seen campus key is matched against the seed key set; unknown keys
get a warning plus (when close by substring or edit distance at most 2)
suggestions. -/
def campusNameStep (expectedCampuses : List String)
    (st : CampusValidationResults × List String) (e : ValidEntry) :
    CampusValidationResults × List String :=
  let res := st.1
  let seenCampuses := st.2
  let campus := e.campus
  let rowNumber := e.rowNumber
  if seenCampuses.contains campus then (res, seenCampuses)
  else
    let seen1 := seenCampuses ++ [campus]
    if expectedCampuses.contains campus then
      ({ res with validCampuses := res.validCampuses ++
          [{ campus := campus, rowNumber := rowNumber }] }, seen1)
    else
      let sug := expectedCampuses.filter (fun expected =>
        strIncludes expected campus || strIncludes campus expected ||
        calculateLevenshteinDistance campus expected ≤ 2)
      let warningMsg := s!"Row {rowNumber}: Unknown campus name \"{campus}\""
      let sugText := String.intercalate ", " sug
      let fullWarning :=
        if sug.length > 0 then warningMsg ++ s!" - Did you mean: {sugText}?"
        else warningMsg
      ({ res with
          invalidCampuses := res.invalidCampuses ++
            [{ campus := campus, rowNumber := rowNumber }],
          suggestions :=
            if sug.length > 0 then
              res.suggestions ++
                [{ campus := campus, suggestions := sug, rowNumber := rowNumber }]
            else res.suggestions,
          warnings := res.warnings ++ [fullWarning] }, seen1)

/-- `RecipientsSheetManager.validateCampusNames` (lines 1517-1568). -/
def validateCampusNames (validEntries : List ValidEntry) :
    CampusValidationResults :=
  let expectedCampuses := extractHardcodedData.map Prod.fst
  (validEntries.foldl (campusNameStep expectedCampuses)
    ({ validCampuses := [], invalidCampuses := [], warnings := [],
       suggestions := [] }, [])).1

/-!
## Spreadsheet model and sheet adapters
-/

/-- The modelled sheets of the active spreadsheet: the `Recipients` mirror
table and the `CampusReferenceInfo` folder-reference table, each an
optional grid of cell strings (absent = deleted). -/
structure Sheets where
  recipients : Option (List (List String))
  campusRef : Option (List (List String))
  deriving DecidableEq

/-- The durable store plus the spreadsheet. -/
structure SysState where
  props : Props
  sheets : Sheets
  deriving DecidableEq

/-- `sheet.getLastColumn()` on a grid. -/
def maxRowLen (grid : List (List String)) : Nat :=
  grid.foldl (fun m r => max m r.length) 0

/-- `RecipientsSheetManager.sheetExists` (lines 1608-1621). -/
def sheetExists (sh : Sheets) : Bool := sh.recipients.isSome

/-- The result-plus-metadata record of `batchReadSheetData`
(lines 1688-1699; failure and empty variants at 1637-1642, 1653-1657). -/
structure BatchResult where
  success : Bool
  data : List (List String)
  rows : Nat
  columns : Nat
  dataRows : Nat
  hasValidHeaders : Bool
  isEmpty : Bool
  deriving DecidableEq

/-- `RecipientsSheetManager.batchReadSheetData` (lines 1628-1710): fails
when the sheet is missing; reports empty for fewer than two rows or
columns; otherwise returns the whole grid and checks the header row
(`headers[index] && headers[index].toString().trim() === header`).
Absent metadata fields of the failure/empty variants are `undefined`,
i.e. falsy. -/
def batchReadSheetData (sh : Sheets) : BatchResult :=
  match sh.recipients with
  | none =>
      { success := false, data := [], rows := 0, columns := 0, dataRows := 0,
        hasValidHeaders := false, isEmpty := false }
  | some grid =>
      let lastRow := grid.length
      let lastColumn := maxRowLen grid
      if lastRow ≤ 1 || lastColumn < 2 then
        { success := true, data := [], rows := lastRow, columns := lastColumn,
          dataRows := 0, hasValidHeaders := false, isEmpty := true }
      else
        let headers := grid.getD 0 []
        let hasValidHeaders :=
          (headers.getD 0 "") != "" && jsTrim (headers.getD 0 "") == "Campus" &&
          (headers.getD 1 "") != "" && jsTrim (headers.getD 1 "") == "Recipient"
        { success := true, data := grid, rows := lastRow, columns := lastColumn,
          dataRows := grid.length - 1, hasValidHeaders := hasValidHeaders,
          isEmpty := false }

/-- `MigrationManager.readCampusReferenceInfo` (lines 512-556): reads the
`CampusReferenceInfo` sheet, lowercasing and trimming the campus and
trimming the drive id, keeping rows where both are non-empty (later rows
overwrite earlier ones for the same campus); falls back to the embedded
drive-link table when the sheet is missing. -/
def readCampusReferenceInfo (sh : Sheets) : List (String × String) :=
  match sh.campusRef with
  | none => getHardcodedDriveLinks
  | some grid =>
      (grid.drop 1).foldl
        (fun acc row =>
          let campus := jsTrim (jsToLower (row.getD 0 ""))
          let driveId := jsTrim (row.getD 1 "")
          if campus != "" && driveId != "" then assocSet acc campus driveId
          else acc)
        []

/-- The `Recipients` sheet grid built by `createSheet` /
`createSheetFromData` / recovery (header row then one row per
campus-recipient pair in key order). -/
def buildRecipientsGrid (data : List (String × List String)) : List (List String) :=
  ["Campus", "Recipient"] :: data.flatMap (fun p => p.2.map (fun r => [p.1, r]))

/-- `RecipientsSheetManager.createSheetFromData` (lines 1915-1981):
deletes any existing `Recipients` sheet and recreates it from the data. -/
def createSheetFromData (data : List (String × List String)) (sh : Sheets) :
    Sheets :=
  { sh with recipients := some (buildRecipientsGrid data) }

/-- `MigrationManager.createRecipientsSheet` (lines 496-506) with
`RecipientsSheetManager.createSheet` (lines 1388-1435): a no-op when the
sheet already exists. -/
def createRecipientsSheet (campusData : List (String × List String))
    (sh : Sheets) : Sheets :=
  if sheetExists sh then sh
  else { sh with recipients := some (buildRecipientsGrid campusData) }

/-!
## Reading the Recipients sheet (`readRecipientsData`,
`readRecipientsDataOptimized`, src/Code.js lines 1116-1254 and 1717-1801)
-/

/-- JSON encoding of a `valid` entry (line 1329). -/
def encodeValidEntry (e : ValidEntry) : JValue :=
  JValue.obj
    [("campus", JValue.str e.campus),
     ("recipient", JValue.str e.recipient),
     ("rowNumber", JValue.num e.rowNumber),
     ("originalCampus", JValue.str e.originalCampus)]

/-- JSON encoding of an `invalid` entry (lines 1302, 1310, 1340). -/
def encodeInvalidEntry (e : InvalidEntry) : JValue :=
  JValue.obj
    ([("campus", JValue.str e.campus),
      ("recipient", JValue.str e.recipient),
      ("rowNumber", JValue.num e.rowNumber),
      ("error", JValue.str e.error)] ++
     (match e.originalCampus with
      | some c => [("originalCampus", JValue.str c)]
      | none => []))

/-- JSON encoding of the email validation results record. -/
def encodeEmailValidationResults (vr : EmailValidationResults) : JValue :=
  JValue.obj
    [("valid", JValue.arr (vr.valid.map encodeValidEntry)),
     ("invalid", JValue.arr (vr.invalid.map encodeInvalidEntry)),
     ("errors", JValue.arr (vr.errors.map JValue.str)),
     ("warnings", JValue.arr (vr.warnings.map JValue.str)),
     ("summary", JValue.obj
       [("totalRows", JValue.num vr.summary.totalRows),
        ("validEmails", JValue.num vr.summary.validEmails),
        ("invalidEmails", JValue.num vr.summary.invalidEmails),
        ("emptyRows", JValue.num vr.summary.emptyRows),
        ("duplicateEmails", JValue.num vr.summary.duplicateEmails)])]

/-- JSON encoding of the campus-name validation results record. -/
def encodeCampusValidationResults (cv : CampusValidationResults) : JValue :=
  JValue.obj
    [("validCampuses", JValue.arr (cv.validCampuses.map (fun e =>
        JValue.obj [("campus", JValue.str e.campus),
                    ("rowNumber", JValue.num e.rowNumber)]))),
     ("invalidCampuses", JValue.arr (cv.invalidCampuses.map (fun e =>
        JValue.obj [("campus", JValue.str e.campus),
                    ("rowNumber", JValue.num e.rowNumber)]))),
     ("warnings", JValue.arr (cv.warnings.map JValue.str)),
     ("suggestions", JValue.arr (cv.suggestions.map (fun e =>
        JValue.obj [("campus", JValue.str e.campus),
                    ("suggestions", JValue.arr (e.suggestions.map JValue.str)),
                    ("rowNumber", JValue.num e.rowNumber)])))]

/-- JSON encoding of the duplicate-handling results record. -/
def encodeDuplicateHandling (dh : DuplicateHandlingResult) : JValue :=
  JValue.obj
    [("data", JValue.obj (dh.data.map (fun p =>
        (p.1, JValue.arr (p.2.map JValue.str))))),
     ("duplicateWarnings", JValue.arr (dh.duplicateWarnings.map JValue.str)),
     ("summary", JValue.obj
       [("totalCampuses", JValue.num dh.totalCampuses),
        ("totalRecipients", JValue.num dh.totalRecipients),
        ("duplicatesFound", JValue.num dh.duplicatesFound)])]

/-- JSON encoding of `batchResult.metadata` (lines 1691-1698); the wall
clock `readTime` is modelled as 0. -/
def encodeBatchMetadata (b : BatchResult) : JValue :=
  JValue.obj
    [("rows", JValue.num b.rows),
     ("columns", JValue.num b.columns),
     ("dataRows", JValue.num b.dataRows),
     ("hasValidHeaders", JValue.bool b.hasValidHeaders),
     ("readTime", JValue.num 0),
     ("isEmpty", JValue.bool b.isEmpty)]

/-- The `_validationResults` metadata object stored into the returned
mapping by `readRecipientsDataOptimized` (lines 1780-1793); the
non-optimized `readRecipientsData` (lines 1232-1243) attaches the same
object without the batch-operation fields. -/
def encodeValidationMeta (vr : EmailValidationResults)
    (cv : CampusValidationResults) (dh : DuplicateHandlingResult)
    (batchMeta : Option BatchResult) : JValue :=
  let summaryFields :=
    [("totalProcessed", JValue.num vr.summary.totalRows),
     ("validRecipients", JValue.num dh.totalRecipients),
     ("validCampuses", JValue.num dh.data.length),
     ("errorsFound", JValue.num vr.errors.length),
     ("warningsFound", JValue.num
       (vr.warnings.length + dh.duplicateWarnings.length + cv.warnings.length))]
  match batchMeta with
  | some b =>
      JValue.obj
        [("email", encodeEmailValidationResults vr),
         ("campus", encodeCampusValidationResults cv),
         ("duplicates", encodeDuplicateHandling dh),
         ("batchOperation", encodeBatchMetadata b),
         ("summary", JValue.obj
           (summaryFields ++ [("batchReadTime", JValue.num 0)]))]
  | none =>
      JValue.obj
        [("email", encodeEmailValidationResults vr),
         ("campus", encodeCampusValidationResults cv),
         ("duplicates", encodeDuplicateHandling dh),
         ("summary", JValue.obj summaryFields)]

/-- The shared processing pipeline of `readRecipientsData` (lines
1161-1245) and `readRecipientsDataOptimized` (lines 1737-1795): validate
emails, validate campus names, fold duplicates, then assign the
`_validationResults` property onto the returned campus-to-recipients
object (an ordinary enumerable key, appended after the campus keys). -/
def recipientsDataFromRows (data : List (List String))
    (batchMeta : Option BatchResult) : List (String × JValue) :=
  let validationResults := validateEmailAddresses data
  let campusValidation := validateCampusNames validationResults.valid
  let duplicateHandling := handleDuplicateCampusEntries validationResults.valid
  let recipientsData := duplicateHandling.data.map
    (fun p => (p.1, JValue.arr (p.2.map JValue.str)))
  recipientsData ++
    [("_validationResults",
      encodeValidationMeta validationResults campusValidation
        duplicateHandling batchMeta)]

/-- `RecipientsSheetManager.readRecipientsData` (lines 1116-1254): empty
result when the sheet is missing or has no data; otherwise the shared
pipeline. -/
def readRecipientsData (sh : Sheets) : List (String × JValue) :=
  match sh.recipients with
  | none => []
  | some grid =>
      let lastRow := grid.length
      let lastColumn := maxRowLen grid
      if lastRow ≤ 1 || lastColumn < 2 then []
      else if grid.length ≤ 1 then []
      else recipientsDataFromRows grid none

/-- `RecipientsSheetManager.readRecipientsDataOptimized` (lines
1717-1801): the same pipeline over a batch read. -/
def readRecipientsDataOptimized (sh : Sheets) : List (String × JValue) :=
  let batchResult := batchReadSheetData sh
  if !batchResult.success then []
  else if batchResult.isEmpty then []
  else recipientsDataFromRows batchResult.data (some batchResult)

/-!
## Recovery Manager (`recoverRecipientsSheet`, `validateAndRecoverSheet`,
src/Code.js lines 1809-2052)
-/

/-- The `{success, action}` part of a recovery result. -/
structure RecoveryOutcome where
  success : Bool
  action : String
  deriving DecidableEq

/-- The recipient lists extracted from a cached Directory for recovery
(lines 1871-1876): every campus entry whose `recipients` field is an
array.  Cell values written back to the sheet render through
`jvalueDisplay`; under cache validation they are always strings. -/
def extractRecipientLists (cachedData : JValue) : List (String × List String) :=
  (entriesOf cachedData).foldl
    (fun acc p =>
      match jsGetField p.2 "recipients" with
      | some (JValue.arr xs) => acc ++ [(p.1, xs.map jvalueDisplay)]
      | _ => acc)
    []

/-- The health re-check at the top of `recoverRecipientsSheet` (lines
1814-1837): an existing sheet that batch-reads successfully, is non-empty
and has valid headers needs no recovery. -/
def recoverHealthCheck (sh : Sheets) : Bool :=
  if sheetExists sh then
    let b := batchReadSheetData sh
    b.success && !b.isEmpty && b.hasValidHeaders
  else false

/-- `RecipientsSheetManager.recoverRecipientsSheet` (lines 1809-1906):
when the health re-check passes, returns `no_recovery_needed` WITHOUT
rebuilding; otherwise rebuilds the sheet from the cached Directory when it
is non-empty, falling back to the embedded seed table; a rebuild with no
rows available throws, which the outer catch turns into
`recovery_failed`. -/
def recoverRecipientsSheet (s : SysState) : RecoveryOutcome × SysState :=
  if recoverHealthCheck s.sheets then
    ({ success := true, action := "no_recovery_needed" }, s)
  else
    let res := getCampusData s.props
    let s1 : SysState := { s with props := res.2 }
    let cacheUnusable :=
      match res.1 with
      | none => true
      | some cd => !jsTruthy cd || (entriesOf cd).isEmpty
    if cacheUnusable then
      let hardcodedData := extractHardcodedData
      if hardcodedData.isEmpty then
        ({ success := false, action := "recovery_failed" }, s1)
      else
        ({ success := true, action := "recovered_from_hardcoded" },
         { s1 with sheets := createSheetFromData hardcodedData s1.sheets })
    else
      match res.1 with
      | some cd =>
          let recipientData := extractRecipientLists cd
          if recipientData.isEmpty then
            ({ success := false, action := "recovery_failed" }, s1)
          else
            ({ success := true, action := "recovered_from_cache" },
             { s1 with sheets := createSheetFromData recipientData s1.sheets })
      | none => ({ success := false, action := "recovery_failed" }, s1)

/-- `RecipientsSheetManager.validateAndRecoverSheet` (lines 1989-2052):
triggers recovery when the sheet is missing, unreadable, empty, has bad
headers, or contains only invalid rows; otherwise reports
`validation_passed`. -/
def validateAndRecoverSheet (s : SysState) : RecoveryOutcome × SysState :=
  if !sheetExists s.sheets then recoverRecipientsSheet s
  else
    let batchResult := batchReadSheetData s.sheets
    if !batchResult.success then recoverRecipientsSheet s
    else if batchResult.isEmpty then recoverRecipientsSheet s
    else if !batchResult.hasValidHeaders then recoverRecipientsSheet s
    else
      let validationResults := validateEmailAddresses batchResult.data
      if validationResults.valid.length = 0 &&
         validationResults.invalid.length > 0 then
        recoverRecipientsSheet s
      else ({ success := true, action := "validation_passed" }, s)

/-!
## Migration Manager (`performMigration`, src/Code.js lines 193-304)
-/

/-- The Combining step of `performMigration` (lines 232-238): one combined
entry per campus of the seed recipient table, with the drive link from the
folder-reference data when present and `''` otherwise.  The seed object
literal's keys are distinct, so the per-key assignments produce the
entries in seed key order; campuses present only in the folder-reference
data are never visited. -/
def combineMigrationData (hardcodedData : List (String × List String))
    (driveData : List (String × String)) : List (String × JValue) :=
  hardcodedData.map (fun p =>
    (p.1, JValue.obj
      [("recipients", JValue.arr (p.2.map JValue.str)),
       ("driveLink", JValue.str ((alookup driveData p.1).getD ""))]))

/-- `MigrationManager.performMigration` (lines 193-304): a no-op returning
`false` when the migration-complete check already reports true; otherwise
extract the seed table, read the folder references, combine, store, create
the `Recipients` sheet and set the completion flag.  A thrown error
propagates to the caller with the flag still unset. -/
def performMigration (s : SysState) (now : String) :
    Except String Bool × SysState :=
  if isMigrationComplete s.props then (Except.ok false, s)
  else
    let hardcodedData := extractHardcodedData
    let driveData := readCampusReferenceInfo s.sheets
    let combinedData := combineMigrationData hardcodedData driveData
    match storeCampusData (JValue.obj combinedData) now s.props with
    | Except.error e => (Except.error e, s)
    | Except.ok props1 =>
        let sheets1 := createRecipientsSheet hardcodedData s.sheets
        let props2 := setMigrationComplete now props1
        (Except.ok true, { props := props2, sheets := sheets1 })

/-!
## Lookup Façade (`getInfoByCampus`, src/Code.js lines 2346-2518)
-/

/-- The return record of `getInfoByCampus`; `recipients` keeps the JS
array elements (strings in every reachable state). -/
structure CampusInfo where
  recipients : List JValue
  driveLink : String
  deriving DecidableEq

/-- The empty fallback record `{recipients: [], driveLink: ""}`. -/
def emptyCampusInfo : CampusInfo := { recipients := [], driveLink := "" }

/-- The lookup-and-normalize tail of `getInfoByCampus` (lines 2428-2497):
a missing campus yields the empty record; a present entry has a non-array
`recipients` or non-string `driveLink` coerced to `[]` / `""`. -/
def lookupCampusInfo (campusData : JValue) (normalizedCampus : String) :
    CampusInfo :=
  match jsGetField campusData normalizedCampus with
  | none => emptyCampusInfo
  | some campusInfo =>
      { recipients :=
          match jsGetField campusInfo "recipients" with
          | some (JValue.arr xs) => xs
          | _ => [],
        driveLink :=
          match jsGetField campusInfo "driveLink" with
          | some (JValue.str d) => d
          | _ => "" }

/-- The combine step of the cache-refresh path of `getInfoByCampus`
(lines 2400-2416): every key of the recipients-sheet mapping (INCLUDING
its `_validationResults` metadata key) becomes a combined entry, then
folder-reference campuses without recipients are appended with empty
recipient lists.  The folder-reference data has distinct keys, so testing
against the first block is exact. -/
def combineLookupData (recipientsData : List (String × JValue))
    (driveData : List (String × String)) : List (String × JValue) :=
  let base := recipientsData.map (fun p =>
    (p.1, JValue.obj
      [("recipients", p.2),
       ("driveLink", JValue.str ((alookup driveData p.1).getD ""))]))
  base ++
    (driveData.filter (fun q => (alookup base q.1).isNone)).map (fun q =>
      (q.1, JValue.obj
        [("recipients", JValue.arr []),
         ("driveLink", JValue.str q.2)]))

/-- `getInfoByCampus` (lines 2346-2518).  Invalid input short-circuits to
the empty record.  An incomplete migration triggers `performMigration`.
The lookup is cache-first; on a cache miss the sheet is validated and
recovered, re-read, reconciled with the folder-reference data and stored,
and the lookup proceeds on the fresh Directory.  Every thrown error is
caught and mapped to the empty record (with all store/sheet effects made
before the throw kept). -/
def getInfoByCampus (s : SysState) (now : String) (campusValue : String) :
    CampusInfo × SysState :=
  if campusValue = "" then (emptyCampusInfo, s)
  else
    let migration :=
      if !isMigrationComplete s.props then performMigration s now
      else (Except.ok false, s)
    match migration with
    | (Except.error _, s1) => (emptyCampusInfo, s1)
    | (Except.ok _, s1) =>
        let normalizedCampus := jsTrim (jsToLower campusValue)
        let cacheRes := getCampusData s1.props
        let s2 : SysState := { s1 with props := cacheRes.2 }
        match cacheRes.1 with
        | some campusData => (lookupCampusInfo campusData normalizedCampus, s2)
        | none =>
            let recovery := validateAndRecoverSheet s2
            let s3 := recovery.2
            let recipientsData := readRecipientsDataOptimized s3.sheets
            let driveData := readCampusReferenceInfo s3.sheets
            let combinedData := combineLookupData recipientsData driveData
            match storeCampusData (JValue.obj combinedData) now s3.props with
            | Except.error _ => (emptyCampusInfo, s3)
            | Except.ok props4 =>
                (lookupCampusInfo (JValue.obj combinedData) normalizedCampus,
                 { s3 with props := props4 })

/-!
## Telemetry log appends (`logMigrationStatus` lines 55-68,
`logRuntimeOperation` lines 628-641)
-/

/-- A migration telemetry log entry (lines 42-48). -/
structure MigrationLogEntry where
  timestamp : String
  step : String
  status : String
  message : String
  data : JValue
  deriving DecidableEq

/-- A runtime telemetry log entry (lines 615-621). -/
structure RuntimeLogEntry where
  timestamp : String
  operation : String
  level : String
  message : String
  data : JValue
  deriving DecidableEq

/-- The store update of `MigrationManager.logMigrationStatus` (lines
55-68): parse the existing `migrationLogs` value (absent = empty),
`unshift` the new entry and keep only the first 50. -/
def logMigrationStatusStore (existingLogs : Option (List MigrationLogEntry))
    (entry : MigrationLogEntry) : List MigrationLogEntry :=
  let logs := existingLogs.getD []
  (entry :: logs).take 50

/-- The store update of `PropertiesManager.logRuntimeOperation` (lines
628-641): `unshift` the new entry onto `runtimeLogs` and keep only the
first 100. -/
def logRuntimeOperationStore (existingLogs : Option (List RuntimeLogEntry))
    (entry : RuntimeLogEntry) : List RuntimeLogEntry :=
  let logs := existingLogs.getD []
  (entry :: logs).take 100

/-!
## Auxiliary definitions for the claim statements
-/

/-- A stored directory string that `getCampusData` treats as corrupt:
non-JSON, or JSON failing structural validation. -/
def cacheStringCorrupt : StoredStr → Bool
  | StoredStr.garbage _ => true
  | StoredStr.json v => !(validateCacheData v).isEmpty

/-- Spec-side reading of the dedicated migration flag: the durable
`migrationComplete` key equals the string `'true'`. -/
def dedicatedFlagReportsComplete (p : Props) : Bool :=
  p.migrationComplete == some "true"

/-- The `migrationComplete` mirror field inside the stored directory
payload equals `true` (only observable when the stored string parses). -/
def payloadMirrorReportsComplete (p : Props) : Bool :=
  match p.campusData with
  | some (StoredStr.json v) =>
      jsGetField v "migrationComplete" == some (JValue.bool true)
  | _ => false

/-- A recipients-array element that passes `getCampusData`'s validation:
a string satisfying the cache email-format check. -/
def emailElemOk : JValue → Bool
  | JValue.str s => cacheEmailRegexTest s
  | _ => false

/-- All recipients of one campus entry pass `emailElemOk` (vacuous when
the `recipients` field is not an array). -/
def recipientsFieldEmailsOk (info : JValue) : Bool :=
  match jsGetField info "recipients" with
  | some (JValue.arr xs) => xs.all emailElemOk
  | _ => true

/-- The additional condition `getCampusData` enforces beyond
`storeCampusData`: every recipient is a string passing the cache email
format check. -/
def recipientsEmailsOk (d : JValue) : Bool :=
  (entriesOf d).all (fun p => recipientsFieldEmailsOk p.2)

/-- The combined migration entry for one seed campus: its recipients with
the folder reference from the drive data, or `''` when absent. -/
def combinedEntryFor (driveData : List (String × String)) (campus : String)
    (recipients : List String) : JValue :=
  JValue.obj
    [("recipients", JValue.arr (recipients.map JValue.str)),
     ("driveLink", JValue.str ((alookup driveData campus).getD ""))]

/-- Look a campus up inside the Directory payload currently stored under
the durable `campusData` key. -/
def storedDirectoryLookup (p : Props) (campus : String) : Option JValue :=
  match p.campusData with
  | some (StoredStr.json v) =>
      match jsGetField v "campusData" with
      | some d => jsGetField d campus
      | none => none
  | _ => none

/-!
## Concrete inputs used by the counterexamples, code-bug evaluations and
witnesses
-/

/-- An empty store. -/
def propsEmpty : Props :=
  { campusData := none, migrationComplete := none, lastUpdated := none }

/-- C8: the concrete input rows of the spec's validator scenario. -/
def c8Rows : List (List String) :=
  [["Campus", "Recipient"],
   ["bernal", "a@nisd.net"],
   ["bernal", "bad-email"],
   ["bernal", "a@nisd.net"]]

/-- C7 witness: a store whose dedicated migration flag is set. -/
def sC7 : SysState :=
  { props := { campusData := none, migrationComplete := some "true",
               lastUpdated := none },
    sheets := { recipients := none, campusRef := none } }

/-- C1: migration complete, durable cache empty, a well-formed Recipients
sheet with one valid row for `bernal`, no reference-table sheet. -/
def sC1 : SysState :=
  { props := { campusData := none, migrationComplete := some "true",
               lastUpdated := none },
    sheets := { recipients := some
                  [["Campus", "Recipient"], ["bernal", "david.laboy@nisd.net"]],
                campusRef := none } }

/-- C2 counterexample: the empty string stored under the directory key. -/
def pC2empty : Props :=
  { campusData := some (StoredStr.garbage ""), migrationComplete := none,
    lastUpdated := none }

/-- C2 witness: a non-JSON string stored under the directory key. -/
def pC2w : Props :=
  { campusData := some (StoredStr.garbage "not json at all"),
    migrationComplete := none, lastUpdated := none }

/-- C3 counterexample: the dedicated flag is unset but the stored payload
carries `migrationComplete: true`. -/
def pC3 : Props :=
  { campusData := some (StoredStr.json
      (JValue.obj [("migrationComplete", JValue.bool true)])),
    migrationComplete := none, lastUpdated := none }

/-- C4 counterexample: migration not yet run; the `CampusReferenceInfo`
sheet holds a campus `zzz` absent from the seed recipient table. -/
def sC4 : SysState :=
  { props := propsEmpty,
    sheets := { recipients := none,
                campusRef := some [["Campus", "Drive Folder ID"],
                                   ["zzz", "idz"]] } }

/-- C5: a non-empty, valid cached Directory. -/
def dirC5 : JValue :=
  JValue.obj [("bernal", JValue.obj
    [("recipients", JValue.arr [JValue.str "sally.maher@nisd.net"]),
     ("driveLink", JValue.str "x")])]

/-- C5 counterexample: the Recipients sheet has valid headers but only an
invalid data row, while the cache holds a valid non-empty Directory. -/
def sC5 : SysState :=
  { props := { campusData := some (StoredStr.json (wrapCampusData dirC5 "2025")),
               migrationComplete := some "true", lastUpdated := none },
    sheets := { recipients := some [["Campus", "Recipient"], ["bernal", "bad"]],
                campusRef := none } }

/-- C5 witness: the Recipients sheet deleted, same valid non-empty cache. -/
def sC5w : SysState :=
  { props := { campusData := some (StoredStr.json (wrapCampusData dirC5 "2025")),
               migrationComplete := some "true", lastUpdated := none },
    sheets := { recipients := none, campusRef := none } }

/-- C6 counterexample: a directory accepted by `storeCampusData` (array
recipients, string driveLink) whose recipient fails the email-format
check applied later by `getCampusData`. -/
def dC6 : JValue :=
  JValue.obj [("x", JValue.obj
    [("recipients", JValue.arr [JValue.str "notanemail"]),
     ("driveLink", JValue.str "")])]

/-- C6 witness: a directory whose recipients also pass the email check. -/
def dC6w : JValue :=
  JValue.obj [("bernal", JValue.obj
    [("recipients", JValue.arr [JValue.str "sally.maher@nisd.net"]),
     ("driveLink", JValue.str "x")])]

/-- C10 witness: a Recipients sheet with one valid data row. -/
def shC10 : Sheets :=
  { recipients := some [["Campus", "Recipient"], ["bernal", "a@nisd.net"]],
    campusRef := none }

/-- C10 witness grid. -/
def gridC10 : List (List String) :=
  [["Campus", "Recipient"], ["bernal", "a@nisd.net"]]

/-!
## Claim theorems
-/

/-- C8: on the rows `[["Campus","Recipient"],["bernal","a@nisd.net"],
["bernal","bad-email"],["bernal","a@nisd.net"]]`, `validateEmailAddresses`
yields 2 valid and 1 invalid entry (the invalid one at row 3, row 4
counted as a duplicate warning rather than an error), and
`handleDuplicateCampusEntries` on those valid entries reconciles
`bernal` to the single recipient `a@nisd.net` (first occurrence kept). -/
theorem claim_C8_concrete_validation_scenario :
    (validateEmailAddresses c8Rows).valid.length = 2 ∧
    (validateEmailAddresses c8Rows).invalid.length = 1 ∧
    (validateEmailAddresses c8Rows).invalid.map (fun e => e.rowNumber) = [3] ∧
    (validateEmailAddresses c8Rows).summary.duplicateEmails = 1 ∧
    (validateEmailAddresses c8Rows).errors.length = 1 ∧
    alookup
      (handleDuplicateCampusEntries (validateEmailAddresses c8Rows).valid).data
      "bernal" = some ["a@nisd.net"] := by
  decide

/-- C9: every append through the migration log store keeps at most 50
entries and places the appended entry at index 0, and every append through
the runtime log store keeps at most 100 entries and places the appended
entry at index 0, whatever was stored before. -/
theorem claim_C9_log_caps_newest_first
    (existingM : Option (List MigrationLogEntry)) (eM : MigrationLogEntry)
    (existingR : Option (List RuntimeLogEntry)) (eR : RuntimeLogEntry) :
    ((logMigrationStatusStore existingM eM).length ≤ 50 ∧
     (logMigrationStatusStore existingM eM).head? = some eM) ∧
    ((logRuntimeOperationStore existingR eR).length ≤ 100 ∧
     (logRuntimeOperationStore existingR eR).head? = some eR) := by
  refine ⟨⟨?_, ?_⟩, ⟨?_, ?_⟩⟩ <;>
    simp [logMigrationStatusStore, logRuntimeOperationStore,
      List.length_take, List.take_succ_cons]

/-- C9 witness: a concrete append on each log. -/
theorem claim_C9_witness :
    (logMigrationStatusStore none
      { timestamp := "t", step := "migration_check", status := "started",
        message := "m", data := JValue.obj [] }).length ≤ 50 ∧
    (logRuntimeOperationStore none
      { timestamp := "t", operation := "cache_hit", level := "info",
        message := "m", data := JValue.obj [] }).head? = some
      { timestamp := "t", operation := "cache_hit", level := "info",
        message := "m", data := JValue.obj [] } :=
  ⟨(claim_C9_log_caps_newest_first none
      { timestamp := "t", step := "migration_check", status := "started",
        message := "m", data := JValue.obj [] } none
      { timestamp := "t", operation := "cache_hit", level := "info",
        message := "m", data := JValue.obj [] }).1.1,
   (claim_C9_log_caps_newest_first none
      { timestamp := "t", step := "migration_check", status := "started",
        message := "m", data := JValue.obj [] } none
      { timestamp := "t", operation := "cache_hit", level := "info",
        message := "m", data := JValue.obj [] }).2.2⟩

/-- C7: when the migration-complete check already reports true,
`performMigration` returns `false` and changes nothing: the stored
Directory and the Recipients sheet are exactly as before, so a second run
creates no duplicate mirror rows. -/
theorem claim_C7_migration_noop_when_complete (s : SysState) (now : String)
    (h : isMigrationComplete s.props = true) :
    performMigration s now = (Except.ok false, s) := by
  simp [performMigration, h]

/-- C7 witness: the guard fires on a store whose dedicated flag is set. -/
theorem claim_C7_witness :
    isMigrationComplete sC7.props = true ∧
    performMigration sC7 "T" = (Except.ok false, sC7) :=
  ⟨by decide, claim_C7_migration_noop_when_complete sC7 "T" (by decide)⟩

/-- C2 counterexample: the empty string is a string stored under the
directory key that is not parseable as JSON, yet `getCampusData` treats it
as a plain cache miss: it returns null and leaves the key in place
(undeleted), because the raw property value is falsy. -/
theorem claim_C2_counterexample_empty_string :
    truthyStored (StoredStr.garbage "") = false ∧
    getCampusData pC2empty = (none, pC2empty) ∧
    pC2empty.campusData ≠ none := by
  decide

/-- C2 amended: for every NON-EMPTY (truthy) string stored under the
directory key that is either not parseable as JSON or fails structural
validation, `getCampusData` returns null and deletes the directory key. -/
theorem claim_C2_corruption_clears (p : Props) (st : StoredStr)
    (h1 : p.campusData = some st) (h2 : truthyStored st = true)
    (h3 : cacheStringCorrupt st = true) :
    getCampusData p = (none, clearCache p) := by
  cases st with
  | garbage s => simp [getCampusData, h1, h2]
  | json v =>
      have hv : (validateCacheData v).isEmpty = false := by
        simpa [cacheStringCorrupt] using h3
      simp [getCampusData, h1, h2, hv]

/-- C2 witness: a concrete non-JSON stored string is cleared. -/
theorem claim_C2_witness :
    getCampusData pC2w = (none, clearCache pC2w) :=
  claim_C2_corruption_clears pC2w (StoredStr.garbage "not json at all")
    (by decide) (by decide) (by decide)

/-- C3 counterexample: with the dedicated durable flag unset but a stored
payload carrying `migrationComplete: true`, `isMigrationComplete` reports
true — the payload mirror DOES determine the result, contradicting the
claim that the dedicated flag alone does. -/
theorem claim_C3_counterexample_payload_flag :
    isMigrationComplete pC3 = true ∧
    pC3.migrationComplete ≠ some "true" := by
  decide

/-- C3 amended: `isMigrationComplete` reports complete exactly when the
dedicated durable flag equals `'true'` OR the stored directory payload
parses with its `migrationComplete` mirror field equal to `true`; the
dedicated flag is checked first but the mirror is an alternative source of
truth, not a mere secondary copy. -/
theorem claim_C3_flag_or_payload (p : Props) :
    isMigrationComplete p =
      (dedicatedFlagReportsComplete p || payloadMirrorReportsComplete p) := by
  unfold isMigrationComplete dedicatedFlagReportsComplete
    payloadMirrorReportsComplete
  cases h : (p.migrationComplete == some "true") with
  | true => simp [h]
  | false =>
      simp only [h, Bool.false_eq_true, if_false, Bool.false_or]
      cases hc : p.campusData with
      | none => rfl
      | some st =>
          cases st with
          | json v => simp [truthyStored]
          | garbage s => rfl

/-- C1 (code bug): with migration complete, the durable cache empty, and a
well-formed Recipients sheet holding a valid recipient row for `bernal`,
`getInfoByCampus "bernal"` is specified to read the sheet, reconcile, store
and return bernal's recipients and folder reference — but the mapping
returned by `readRecipientsDataOptimized` carries the extra
`_validationResults` metadata key, the combine step turns it into a campus
entry whose `recipients` field is not an array, `storeCampusData` throws on
it, and the catch-all returns the empty record with nothing stored. -/
theorem claim_C1_lookup_store_crash :
    isMigrationComplete sC1.props = true ∧
    sC1.props.campusData = none ∧
    (validateEmailAddresses (batchReadSheetData sC1.sheets).data).valid.length
      = 1 ∧
    storeError (JValue.obj (combineLookupData
        (readRecipientsDataOptimized sC1.sheets)
        (readCampusReferenceInfo sC1.sheets))) =
      some "Invalid recipients for campus _validationResults: must be an array" ∧
    getInfoByCampus sC1 "T1" "bernal" = (emptyCampusInfo, sC1) := by
  decide

/-- C4 counterexample: a campus `zzz` present only in the folder-reference
source is NOT contained in the combined Directory stored by
`performMigration` — the Combining step iterates only the seed recipient
table's keys. -/
theorem claim_C4_counterexample_drive_only_dropped :
    (performMigration sC4 "T4").1 = Except.ok true ∧
    alookup (readCampusReferenceInfo sC4.sheets) "zzz" = some "idz" ∧
    alookup extractHardcodedData "zzz" = none ∧
    storedDirectoryLookup (performMigration sC4 "T4").2.props "zzz" = none ∧
    storedDirectoryLookup (performMigration sC4 "T4").2.props "bernal" ≠ none := by
  decide

/-- Looking a key up in a key-preserving map of an association list
rewrites to looking up in the original list. -/
theorem alookup_map_keyed {β γ : Type} (l : List (String × β))
    (f : String → β → γ) (c : String) :
    alookup (l.map (fun p => (p.1, f p.1 p.2))) c =
      (alookup l c).map (fun v => f c v) := by
  induction l with
  | nil => rfl
  | cons hd tl ih =>
      obtain ⟨k, v⟩ := hd
      by_cases h : k = c
      · subst h; simp [alookup]
      · simp [alookup, h, ih]

/-- C4 amended: the Combining step of `performMigration` produces a
Directory whose campus set is EXACTLY the seed recipient table's: every
seed campus is present, with the folder reference from the reference data
when available and the empty string otherwise, and every campus absent
from the seed table — including ones present only in the folder-reference
source — is absent from the combined Directory. -/
theorem claim_C4_combine_keys_from_seed (driveData : List (String × String))
    (campus : String) :
    alookup (combineMigrationData extractHardcodedData driveData) campus =
      (alookup extractHardcodedData campus).map
        (fun recipients => combinedEntryFor driveData campus recipients) := by
  unfold combineMigrationData combinedEntryFor
  exact alookup_map_keyed extractHardcodedData
    (fun c rs => JValue.obj
      [("recipients", JValue.arr (rs.map JValue.str)),
       ("driveLink", JValue.str ((alookup driveData c).getD ""))])
    campus

/-- C5 counterexample: the Recipients sheet exists with valid headers but
its single data row is invalid, so `validateAndRecoverSheet` decides to
recover (zero valid rows among a non-empty invalid set) while the cached
Directory is valid and non-empty; the claim demands a rebuild from the
cache, but `recoverRecipientsSheet`'s own health re-check passes and it
returns `no_recovery_needed`, leaving the garbage sheet untouched. -/
theorem claim_C5_counterexample_garbage_sheet_not_rebuilt :
    (validateEmailAddresses (batchReadSheetData sC5.sheets).data).valid.length
      = 0 ∧
    (validateEmailAddresses (batchReadSheetData sC5.sheets).data).invalid.length
      = 1 ∧
    (getCampusData sC5.props).1 = some dirC5 ∧
    entriesOf dirC5 ≠ [] ∧
    validateAndRecoverSheet sC5 =
      ({ success := true, action := "no_recovery_needed" }, sC5) ∧
    sC5.sheets.recipients ≠
      some (buildRecipientsGrid (extractRecipientLists dirC5)) := by
  decide

/-- C5 amended: when the sheet ALSO fails `recoverRecipientsSheet`'s own
health re-check (missing, unreadable, empty, or bad headers — not merely
all-invalid rows), `validateAndRecoverSheet` delegates to
`recoverRecipientsSheet`, which rebuilds the sheet exclusively from the
cached Directory whenever that Directory is truthy, non-empty and yields
recipient rows, and only with the cache absent/empty falls back to the
embedded seed data; the `recovery_failed` outcome is reserved for the
thrown-error path when no rebuild rows exist. -/
theorem claim_C5_recovery_source_order (s : SysState)
    (h : recoverHealthCheck s.sheets = false) :
    validateAndRecoverSheet s = recoverRecipientsSheet s ∧
    (∀ v p1, getCampusData s.props = (some v, p1) → jsTruthy v = true →
      entriesOf v ≠ [] → extractRecipientLists v ≠ [] →
      recoverRecipientsSheet s =
        ({ success := true, action := "recovered_from_cache" },
         { props := p1,
           sheets := createSheetFromData (extractRecipientLists v) s.sheets })) ∧
    (∀ p1, getCampusData s.props = (none, p1) →
      recoverRecipientsSheet s =
        ({ success := true, action := "recovered_from_hardcoded" },
         { props := p1,
           sheets := createSheetFromData extractHardcodedData s.sheets })) ∧
    (∀ v p1, getCampusData s.props = (some v, p1) →
      (jsTruthy v = false ∨ entriesOf v = []) →
      recoverRecipientsSheet s =
        ({ success := true, action := "recovered_from_hardcoded" },
         { props := p1,
           sheets := createSheetFromData extractHardcodedData s.sheets })) := by
  have hseed : extractHardcodedData.isEmpty = false := by decide
  refine ⟨?_, ?_, ?_, ?_⟩
  · unfold validateAndRecoverSheet
    unfold recoverHealthCheck at h
    cases hex : sheetExists s.sheets with
    | false => simp [hex]
    | true =>
        simp only [hex, if_true] at h
        simp only [hex, Bool.not_true, Bool.false_eq_true, if_false]
        cases hsucc : (batchReadSheetData s.sheets).success <;>
          cases hemp : (batchReadSheetData s.sheets).isEmpty <;>
            cases hhv : (batchReadSheetData s.sheets).hasValidHeaders <;>
              simp_all
  · intro v p1 hres htr hne hext
    have hne' : (entriesOf v).isEmpty = false := by
      simp [List.isEmpty_iff, hne]
    have hext' : (extractRecipientLists v).isEmpty = false := by
      simp [List.isEmpty_iff, hext]
    unfold recoverRecipientsSheet
    simp only [h, Bool.false_eq_true, if_false]
    rw [hres]
    simp [htr, hne', hext']
  · intro p1 hres
    unfold recoverRecipientsSheet
    simp only [h, Bool.false_eq_true, if_false]
    rw [hres]
    simp [hseed]
  · intro v p1 hres hbad
    unfold recoverRecipientsSheet
    simp only [h, Bool.false_eq_true, if_false]
    rw [hres]
    cases hbad with
    | inl htr => simp [htr, hseed]
    | inr hemp =>
        have hemp' : (entriesOf v).isEmpty = true := by
          simp [List.isEmpty_iff, hemp]
        simp [hemp', hseed]

/-- C5 witness: with the Recipients sheet deleted and a valid non-empty
cached Directory, recovery rebuilds the sheet from the cache. -/
theorem claim_C5_witness :
    recoverHealthCheck sC5w.sheets = false ∧
    validateAndRecoverSheet sC5w =
      ({ success := true, action := "recovered_from_cache" },
       { props := sC5w.props,
         sheets := createSheetFromData (extractRecipientLists dirC5) sC5w.sheets }) := by
  have h := claim_C5_recovery_source_order sC5w (by decide)
  refine ⟨by decide, ?_⟩
  rw [h.1]
  exact h.2.1 dirC5 sC5w.props (by decide) (by decide) (by decide) (by decide)

/-- A recipients array whose elements all pass `emailElemOk` contributes
no email-format errors to `validateCacheData`. -/
theorem cacheRecipientErrors_eq_nil (k : String) (xs : List JValue)
    (h : xs.all emailElemOk = true) : cacheRecipientErrors k xs = [] := by
  unfold cacheRecipientErrors
  apply List.flatMap_eq_nil_iff.mpr
  intro q hq
  have hmem : q.2 ∈ xs := List.snd_mem_of_mem_enum hq
  have hok : emailElemOk q.2 = true := List.all_eq_true.mp h q.2 hmem
  cases hv : q.2 with
  | str s =>
      have : cacheEmailRegexTest s = true := by
        rw [hv] at hok; simpa [emailElemOk] using hok
      simp [this]
  | null => rw [hv] at hok; simp [emailElemOk] at hok
  | bool b => rw [hv] at hok; simp [emailElemOk] at hok
  | num n => rw [hv] at hok; simp [emailElemOk] at hok
  | arr ys => rw [hv] at hok; simp [emailElemOk] at hok
  | obj fs => rw [hv] at hok; simp [emailElemOk] at hok

/-- A campus entry accepted by `storeCampusData` whose recipients also
pass the email check contributes no errors to `validateCacheData`. -/
theorem cacheEntryErrors_eq_nil (k : String) (info : JValue)
    (hs : storeEntryError k info = none)
    (he : recipientsFieldEmailsOk info = true) :
    cacheEntryErrors k info = [] := by
  have hA : (jsTruthy info && jsTypeofObject info) = true := by
    cases hA : (jsTruthy info && jsTypeofObject info)
    · unfold storeEntryError at hs; rw [hA] at hs; simp at hs
    · rfl
  have hArr : jsIsArrayOpt (jsGetField info "recipients") = true := by
    cases hArr : jsIsArrayOpt (jsGetField info "recipients")
    · unfold storeEntryError at hs; rw [hA, hArr] at hs; simp at hs
    · rfl
  have hStr : jsIsStringOpt (jsGetField info "driveLink") = true := by
    cases hStr : jsIsStringOpt (jsGetField info "driveLink")
    · unfold storeEntryError at hs; rw [hA, hArr, hStr] at hs; simp at hs
    · rfl
  obtain ⟨xs, hxs⟩ : ∃ xs, jsGetField info "recipients" = some (JValue.arr xs) := by
    cases hg : jsGetField info "recipients" with
    | none => rw [hg] at hArr; simp [jsIsArrayOpt] at hArr
    | some v =>
        cases v with
        | arr ys => exact ⟨ys, rfl⟩
        | null => rw [hg] at hArr; simp [jsIsArrayOpt] at hArr
        | bool b => rw [hg] at hArr; simp [jsIsArrayOpt] at hArr
        | num n => rw [hg] at hArr; simp [jsIsArrayOpt] at hArr
        | str s => rw [hg] at hArr; simp [jsIsArrayOpt] at hArr
        | obj fs => rw [hg] at hArr; simp [jsIsArrayOpt] at hArr
  have hemails : xs.all emailElemOk = true := by
    unfold recipientsFieldEmailsOk at he; rw [hxs] at he; exact he
  unfold cacheEntryErrors
  rw [hA, hxs]
  simp [hArr, hStr, hxs, jsIsArrayOpt,
    cacheRecipientErrors_eq_nil k xs hemails]

/-- C6 counterexample: the directory `dC6` is accepted by
`storeCampusData` (its entry has an array `recipients` and a string
`driveLink`), yet the immediately following `getCampusData` does not
return it: the stored recipient fails the email-format check only `get`
applies, so the cache is treated as corrupt, cleared, and null returned. -/
theorem claim_C6_counterexample_invalid_email_roundtrip :
    storeError dC6 = none ∧
    storeCampusData dC6 "T0" propsEmpty =
      Except.ok (storedProps dC6 "T0" propsEmpty) ∧
    getCampusData (storedProps dC6 "T0" propsEmpty) =
      (none, clearCache (storedProps dC6 "T0" propsEmpty)) ∧
    (getCampusData (storedProps dC6 "T0" propsEmpty)).1 ≠ some dC6 := by
  decide

/-- C6 amended: the round-trip `store(d); get() = d` holds for every
directory accepted by `storeCampusData` whose recipients ADDITIONALLY are
all strings passing the cache email-format check (the stored payload
differing from `d` only by the added `lastUpdated`/`migrationComplete`
fields); without that extra condition the counterexample above fails. -/
theorem claim_C6_roundtrip_valid_emails (d : JValue) (now : String) (p : Props)
    (h1 : storeError d = none) (h2 : recipientsEmailsOk d = true) :
    storeCampusData d now p = Except.ok (storedProps d now p) ∧
    getCampusData (storedProps d now p) = (some d, storedProps d now p) := by
  have hobj : (jsTruthy d && jsTypeofObject d) = true := by
    cases hA : (jsTruthy d && jsTypeofObject d)
    · unfold storeError at h1; rw [hA] at h1; simp at h1
    · rfl
  have hent : ∀ q ∈ entriesOf d, storeEntryError q.1 q.2 = none := by
    have h1' := h1
    unfold storeError at h1'
    rw [hobj] at h1'
    simp only [Bool.not_true, Bool.false_eq_true, if_false] at h1'
    exact List.findSome?_eq_none_iff.mp h1'
  have houter : (jsTruthy (wrapCampusData d now) &&
      jsTypeofObject (wrapCampusData d now)) = true := rfl
  have hf : jsGetField (wrapCampusData d now) "campusData" = some d := rfl
  have hcv : validateCacheData (wrapCampusData d now) = [] := by
    unfold validateCacheData
    rw [houter, hf]
    simp only [Bool.not_true, Bool.false_eq_true, if_false]
    simp only [hobj, Bool.not_true, Bool.false_eq_true, if_false]
    apply List.flatMap_eq_nil_iff.mpr
    intro q hq
    exact cacheEntryErrors_eq_nil q.1 q.2 (hent q hq)
      (List.all_eq_true.mp h2 q hq)
  constructor
  · simp [storeCampusData, h1]
  · unfold getCampusData storedProps
    simp [truthyStored, hcv, hf]

/-- C6 witness: a concrete directory with valid emails round-trips. -/
theorem claim_C6_witness :
    storeError dC6w = none ∧ recipientsEmailsOk dC6w = true ∧
    getCampusData (storedProps dC6w "TW" propsEmpty) =
      (some dC6w, storedProps dC6w "TW" propsEmpty) :=
  ⟨by decide, by decide,
   (claim_C6_roundtrip_valid_emails dC6w "TW" propsEmpty
     (by decide) (by decide)).2⟩

/-- The processing pipeline always appends the `_validationResults` entry,
an object (never an array), at the end of the returned mapping. -/
theorem recipientsDataFromRows_last (data : List (List String))
    (bm : Option BatchResult) :
    ∃ meta fs, ("_validationResults", meta) ∈ recipientsDataFromRows data bm ∧
      meta = JValue.obj fs ∧ jsIsArray meta = false := by
  unfold recipientsDataFromRows
  cases bm with
  | none =>
      exact ⟨_, _, List.mem_append_right _ (List.mem_singleton_self _),
        rfl, rfl⟩
  | some b =>
      exact ⟨_, _, List.mem_append_right _ (List.mem_singleton_self _),
        rfl, rfl⟩

/-- C10: on every non-empty Recipients sheet (at least one data row and
two columns), the mappings returned by `readRecipientsData` and
`readRecipientsDataOptimized` contain — alongside the campus keys — the
enumerable key `_validationResults`, whose value is a validation-metadata
object and not an array of recipient strings, so consumers iterating the
returned keys as campus names also receive this non-campus entry. -/
theorem claim_C10_validation_results_leak (sh : Sheets)
    (grid : List (List String)) (h1 : sh.recipients = some grid)
    (h2 : 2 ≤ grid.length) (h3 : 2 ≤ maxRowLen grid) :
    (∃ meta fs,
      ("_validationResults", meta) ∈ readRecipientsDataOptimized sh ∧
      meta = JValue.obj fs ∧ jsIsArray meta = false) ∧
    (∃ meta fs,
      ("_validationResults", meta) ∈ readRecipientsData sh ∧
      meta = JValue.obj fs ∧ jsIsArray meta = false) := by
  have hcond : (decide (grid.length ≤ 1) || decide (maxRowLen grid < 2))
      = false := by
    simp only [Bool.or_eq_false_iff, decide_eq_false_iff_not]
    omega
  have hsucc : (batchReadSheetData sh).success = true := by
    simp [batchReadSheetData, h1, hcond]
  have hemp : (batchReadSheetData sh).isEmpty = false := by
    simp [batchReadSheetData, h1, hcond]
  have hdata : (batchReadSheetData sh).data = grid := by
    simp [batchReadSheetData, h1, hcond]
  constructor
  · have hopt : readRecipientsDataOptimized sh =
        recipientsDataFromRows grid (some (batchReadSheetData sh)) := by
      unfold readRecipientsDataOptimized
      simp [hsucc, hemp, hdata]
    rw [hopt]
    exact recipientsDataFromRows_last grid (some (batchReadSheetData sh))
  · have hplain : readRecipientsData sh = recipientsDataFromRows grid none := by
      have hlen : ¬(grid.length ≤ 1) := by omega
      have hcol : ¬(maxRowLen grid < 2) := by omega
      unfold readRecipientsData
      rw [h1]
      simp [hcond, hlen, hcol]
    rw [hplain]
    exact recipientsDataFromRows_last grid none

/-- C10 witness: the key leaks on a concrete one-row sheet. -/
theorem claim_C10_witness :
    shC10.recipients = some gridC10 ∧
    ∃ meta fs,
      ("_validationResults", meta) ∈ readRecipientsDataOptimized shC10 ∧
      meta = JValue.obj fs ∧ jsIsArray meta = false :=
  ⟨rfl, (claim_C10_validation_results_leak shC10 gridC10 rfl (by decide)
    (by decide)).1⟩
